import Mathlib

/-!
Verification of the cool-roof savings calculator
(`src/streamlit_cool_roof_pro.py`, lines 51-64).

The calculator is a closed-form arithmetic pipeline.  The source works with
Python floats; we embed the arithmetic over `ℚ`, writing every constant of
the source (`0.05`, `3.412`, ...) as the exact rational it denotes, and keep
the source's variable names (`sr_ref`, `deltaQ`, `annual_kwh`, `cum_kwh`, ...).
The inputs collected by the sidebar become the fields of one record.
-/

namespace CoolRoof

/-- The sidebar inputs reaching the calculation block: roof area (m²),
proposed roof solar reflectance `sr`, its `emissivity`, annual solar load,
the EER of the cooling system, the cooling-load fraction `f_cool`,
the electricity price and the CO₂ emission factor. -/
structure Inputs where
  roof_area : ℚ
  sr : ℚ
  emissivity : ℚ
  solar_load : ℚ
  eer : ℚ
  f_cool : ℚ
  elec_price : ℚ
  co2_factor : ℚ
deriving DecidableEq

/-- Line 51: `sr_ref, emissivity_ref = 0.05, 0.90` (first component). -/
def sr_ref : ℚ := 5 / 100

/-- Line 51: `sr_ref, emissivity_ref = 0.05, 0.90` (second component). -/
def emissivity_ref : ℚ := 90 / 100

/-- Line 52: `absorptance_ref = 1 - sr_ref`. -/
def absorptance_ref : ℚ := 1 - sr_ref

/-- Line 53: `absorptance_new = 1 - sr`. -/
def absorptance_new (i : Inputs) : ℚ := 1 - i.sr

/-- Line 56: `deltaQ = (absorptance_ref - absorptance_new) * solar_load * roof_area`. -/
def deltaQ (i : Inputs) : ℚ :=
  (absorptance_ref - absorptance_new i) * i.solar_load * i.roof_area

/-- Line 57: `annual_kwh = deltaQ * f_cool / (eer / 3.412)`. -/
def annual_kwh (i : Inputs) : ℚ :=
  deltaQ i * i.f_cool / (i.eer / (3412 / 1000))

/-- Line 58: `annual_cost = annual_kwh * elec_price`. -/
def annual_cost (i : Inputs) : ℚ := annual_kwh i * i.elec_price

/-- Line 59: `annual_co2 = annual_kwh * co2_factor`. -/
def annual_co2 (i : Inputs) : ℚ := annual_kwh i * i.co2_factor

/-- Line 61: `years = np.arange(1, 21)`. -/
def years : List ℕ := List.range' 1 20

/-- Line 62: `cum_kwh = annual_kwh * years` (elementwise). -/
def cum_kwh (i : Inputs) : List ℚ := years.map (fun y => annual_kwh i * y)

/-- Line 63: `cum_cost = annual_cost * years` (elementwise). -/
def cum_cost (i : Inputs) : List ℚ := years.map (fun y => annual_cost i * y)

/-- Line 64: `cum_co2 = annual_co2 * years` (elementwise). -/
def cum_co2 (i : Inputs) : List ℚ := years.map (fun y => annual_co2 i * y)

/-- The SavingsResult record of the spec's §3: the three annual scalars and
the 20-tuple projection, assembled exactly as lines 57-64 and the DataFrame
of lines 73-78 pair them (tuple `y` holding `annual_* * y`). -/
structure SavingsResult where
  annualEnergyKwh : ℚ
  annualCostCurrency : ℚ
  annualCo2Kg : ℚ
  projection : List (ℕ × ℚ × ℚ × ℚ)
deriving DecidableEq

/-- The 20-year projection: row `y` of the DataFrame zips `years[y]`,
`cum_kwh[y]`, `cum_cost[y]`, `cum_co2[y]`. -/
def projection (i : Inputs) : List (ℕ × ℚ × ℚ × ℚ) :=
  years.map (fun y => ((y : ℕ), annual_kwh i * y, annual_cost i * y, annual_co2 i * y))

/-- The whole calculation block as one pure function (the spec's
`compute` of §4.1). -/
def compute (i : Inputs) : SavingsResult :=
  { annualEnergyKwh := annual_kwh i
    annualCostCurrency := annual_cost i
    annualCo2Kg := annual_co2 i
    projection := projection i }

/-- The §4.1 preconditions on inputs. -/
def Preconditions (i : Inputs) : Prop :=
  0 ≤ i.sr ∧ i.sr ≤ 1 ∧ 0 ≤ i.emissivity ∧ i.emissivity ≤ 1 ∧
  0 < i.roof_area ∧ 0 < i.solar_load ∧ 0 < i.eer ∧
  0 ≤ i.f_cool ∧ i.f_cool ≤ 1 ∧ 0 < i.elec_price ∧ 0 < i.co2_factor

instance (i : Inputs) : Decidable (Preconditions i) := by
  unfold Preconditions
  infer_instance

/-- The spec's §8 concrete scenario (the sidebar defaults): area 1000 m²,
SR 0.10, emissivity 0.90, solar load 1248, EER 11, cooling fraction 1,
price 0.7, CO₂ factor 0.82. -/
def inp0 : Inputs :=
  { roof_area := 1000
    sr := 1 / 10
    emissivity := 9 / 10
    solar_load := 1248
    eer := 11
    f_cool := 1
    elec_price := 7 / 10
    co2_factor := 82 / 100 }

end CoolRoof

namespace CoolRoof

/-- C1: under the §4.1 preconditions, the avoided heat load is
`deltaQ = ((1 - 0.05) - (1 - sr)) * solar_load * roof_area` and the annual
electrical savings are `annual_kwh = deltaQ * f_cool / (eer / 3.412)`,
the reference roof reflectance being fixed at 0.05. -/
theorem c1_core_formulas (i : Inputs) (h : Preconditions i) :
    sr_ref = 5 / 100 ∧
    deltaQ i = ((1 - 5 / 100) - (1 - i.sr)) * i.solar_load * i.roof_area ∧
    (compute i).annualEnergyKwh = deltaQ i * i.f_cool / (i.eer / (3412 / 1000)) := by
  refine ⟨rfl, ?_, rfl⟩
  simp [deltaQ, absorptance_ref, absorptance_new, sr_ref]

/-- Witness for C1 at the concrete default scenario. -/
theorem c1_core_formulas_witness :
    Preconditions inp0 ∧
    (sr_ref = 5 / 100 ∧
     deltaQ inp0 = ((1 - 5 / 100) - (1 - inp0.sr)) * inp0.solar_load * inp0.roof_area ∧
     (compute inp0).annualEnergyKwh = deltaQ inp0 * inp0.f_cool / (inp0.eer / (3412 / 1000))) :=
  ⟨by norm_num [Preconditions, inp0, sr_ref], c1_core_formulas inp0 (by norm_num [Preconditions, inp0, sr_ref])⟩

/-- C2: under the §4.1 preconditions, the annual cost output is
`annual_kwh * elec_price` and the annual CO₂ output is
`annual_kwh * co2_factor`. -/
theorem c2_cost_co2 (i : Inputs) (h : Preconditions i) :
    (compute i).annualCostCurrency = (compute i).annualEnergyKwh * i.elec_price ∧
    (compute i).annualCo2Kg = (compute i).annualEnergyKwh * i.co2_factor :=
  ⟨rfl, rfl⟩

/-- Witness for C2 at the concrete default scenario. -/
theorem c2_cost_co2_witness :
    Preconditions inp0 ∧
    ((compute inp0).annualCostCurrency = (compute inp0).annualEnergyKwh * inp0.elec_price ∧
     (compute inp0).annualCo2Kg = (compute inp0).annualEnergyKwh * inp0.co2_factor) :=
  ⟨by norm_num [Preconditions, inp0, sr_ref], c2_cost_co2 inp0 (by norm_num [Preconditions, inp0, sr_ref])⟩

/-- C4: under the §4.1 preconditions, if the proposed reflectance equals the
reference reflectance 0.05 then `deltaQ` and all three annual outputs are
exactly 0. -/
theorem c4_identity (i : Inputs) (h : Preconditions i) (hsr : i.sr = sr_ref) :
    deltaQ i = 0 ∧ (compute i).annualEnergyKwh = 0 ∧
    (compute i).annualCostCurrency = 0 ∧ (compute i).annualCo2Kg = 0 := by
  have hq : deltaQ i = 0 := by
    simp [deltaQ, absorptance_ref, absorptance_new, hsr]
  refine ⟨hq, ?_, ?_, ?_⟩ <;>
    simp [compute, annual_cost, annual_co2, annual_kwh, hq]

/-- Witness for C4: the default scenario with reflectance lowered to 0.05. -/
theorem c4_identity_witness :
    Preconditions { inp0 with sr := 5 / 100 } ∧ { inp0 with sr := 5 / 100 }.sr = sr_ref ∧
    (deltaQ { inp0 with sr := 5 / 100 } = 0 ∧
     (compute { inp0 with sr := 5 / 100 }).annualEnergyKwh = 0 ∧
     (compute { inp0 with sr := 5 / 100 }).annualCostCurrency = 0 ∧
     (compute { inp0 with sr := 5 / 100 }).annualCo2Kg = 0) :=
  ⟨by norm_num [Preconditions, inp0, sr_ref], by norm_num [Preconditions, inp0, sr_ref], c4_identity { inp0 with sr := 5 / 100 } (by norm_num [Preconditions, inp0, sr_ref]) (by norm_num [Preconditions, inp0, sr_ref])⟩

/-- C3: under the §4.1 preconditions the projection has exactly 20 tuples,
their year components are 1..20 in ascending order, and the tuple for year
`y` carries `y * annual_kwh`, `y * annual_cost`, `y * annual_co2`. -/
theorem c3_projection_shape (i : Inputs) (h : Preconditions i) :
    (compute i).projection.length = 20 ∧
    (compute i).projection.map Prod.fst = List.range' 1 20 ∧
    ∀ p ∈ (compute i).projection,
      p.2.1 = p.1 * (compute i).annualEnergyKwh ∧
      p.2.2.1 = p.1 * (compute i).annualCostCurrency ∧
      p.2.2.2 = p.1 * (compute i).annualCo2Kg := by
  refine ⟨by simp [compute, projection, years], ?_, ?_⟩
  · simp only [compute, projection, List.map_map]
    exact List.map_id _
  · intro p hp
    simp only [compute, projection] at hp
    obtain ⟨y, hy, rfl⟩ := List.mem_map.mp hp
    exact ⟨mul_comm _ _, mul_comm _ _, mul_comm _ _⟩

/-- Witness for C3 at the concrete default scenario. -/
theorem c3_projection_shape_witness :
    Preconditions inp0 ∧
    ((compute inp0).projection.length = 20 ∧
     (compute inp0).projection.map Prod.fst = List.range' 1 20 ∧
     ∀ p ∈ (compute inp0).projection,
       p.2.1 = p.1 * (compute inp0).annualEnergyKwh ∧
       p.2.2.1 = p.1 * (compute inp0).annualCostCurrency ∧
       p.2.2.2 = p.1 * (compute inp0).annualCo2Kg) :=
  ⟨by norm_num [Preconditions, inp0, sr_ref], c3_projection_shape inp0 (by norm_num [Preconditions, inp0, sr_ref])⟩

/-- C5: under the §4.1 preconditions, doubling `roof_area` exactly doubles
`deltaQ`, `annual_kwh`, `annual_cost` and `annual_co2`, and doubling
`solar_load` doubles the same four outputs. -/
theorem c5_linearity (i : Inputs) (h : Preconditions i) :
    (deltaQ { i with roof_area := 2 * i.roof_area } = 2 * deltaQ i ∧
     annual_kwh { i with roof_area := 2 * i.roof_area } = 2 * annual_kwh i ∧
     annual_cost { i with roof_area := 2 * i.roof_area } = 2 * annual_cost i ∧
     annual_co2 { i with roof_area := 2 * i.roof_area } = 2 * annual_co2 i) ∧
    (deltaQ { i with solar_load := 2 * i.solar_load } = 2 * deltaQ i ∧
     annual_kwh { i with solar_load := 2 * i.solar_load } = 2 * annual_kwh i ∧
     annual_cost { i with solar_load := 2 * i.solar_load } = 2 * annual_cost i ∧
     annual_co2 { i with solar_load := 2 * i.solar_load } = 2 * annual_co2 i) := by
  refine ⟨⟨?_, ?_, ?_, ?_⟩, ⟨?_, ?_, ?_, ?_⟩⟩ <;>
    · simp only [deltaQ, annual_kwh, annual_cost, annual_co2,
        absorptance_ref, absorptance_new]
      ring

/-- Witness for C5 at the concrete default scenario. -/
theorem c5_linearity_witness :
    Preconditions inp0 ∧
    ((deltaQ { inp0 with roof_area := 2 * inp0.roof_area } = 2 * deltaQ inp0 ∧
      annual_kwh { inp0 with roof_area := 2 * inp0.roof_area } = 2 * annual_kwh inp0 ∧
      annual_cost { inp0 with roof_area := 2 * inp0.roof_area } = 2 * annual_cost inp0 ∧
      annual_co2 { inp0 with roof_area := 2 * inp0.roof_area } = 2 * annual_co2 inp0) ∧
     (deltaQ { inp0 with solar_load := 2 * inp0.solar_load } = 2 * deltaQ inp0 ∧
      annual_kwh { inp0 with solar_load := 2 * inp0.solar_load } = 2 * annual_kwh inp0 ∧
      annual_cost { inp0 with solar_load := 2 * inp0.solar_load } = 2 * annual_cost inp0 ∧
      annual_co2 { inp0 with solar_load := 2 * inp0.solar_load } = 2 * annual_co2 inp0)) :=
  ⟨by norm_num [Preconditions, inp0, sr_ref], c5_linearity inp0 (by norm_num [Preconditions, inp0, sr_ref])⟩

/-- C8: two precondition-satisfying inputs differing only in the proposed
roof's emissivity produce identical SavingsResults in every component:
`emissivity` never enters the arithmetic of lines 56-64. -/
theorem c8_emissivity_unused (i : Inputs) (e : ℚ)
    (h : Preconditions i) (h' : Preconditions { i with emissivity := e }) :
    compute { i with emissivity := e } = compute i := rfl

/-- Witness for C8: the default scenario with emissivity changed to 0.5. -/
theorem c8_emissivity_unused_witness :
    Preconditions inp0 ∧ Preconditions { inp0 with emissivity := 1 / 2 } ∧
    compute { inp0 with emissivity := 1 / 2 } = compute inp0 :=
  ⟨by norm_num [Preconditions, inp0, sr_ref],
   by norm_num [Preconditions, inp0, sr_ref],
   c8_emissivity_unused inp0 (1 / 2)
     (by norm_num [Preconditions, inp0, sr_ref])
     (by norm_num [Preconditions, inp0, sr_ref])⟩

/-- A darker-than-reference roof with zero cooling-load fraction: the §4.1
preconditions allow `f_cool = 0`, under which the annual savings vanish. -/
def inp6 : Inputs := { inp0 with sr := 0, f_cool := 0 }

/-- C6 as stated is false: at `sr = 0 < 0.05` but `f_cool = 0` (allowed by
the §4.1 precondition `coolingLoadFraction ∈ [0,1]`) the code yields
`annual_kwh = 0`, not `annual_kwh < 0`. -/
theorem c6_counterexample :
    Preconditions inp6 ∧ inp6.sr < sr_ref ∧ ¬ annual_kwh inp6 < 0 := by
  refine ⟨by norm_num [Preconditions, inp6, inp0], by norm_num [inp6, inp0, sr_ref], ?_⟩
  norm_num [annual_kwh, deltaQ, absorptance_ref, absorptance_new, inp6, inp0, sr_ref]

/-- C6 (amended): under the §4.1 preconditions and additionally
`f_cool > 0`, a proposed reflectance below the reference 0.05 makes
`annual_kwh` strictly negative. -/
theorem c6_sign_correctness (i : Inputs) (h : Preconditions i)
    (hf : 0 < i.f_cool) (hsr : i.sr < sr_ref) :
    annual_kwh i < 0 := by
  obtain ⟨-, -, -, -, harea, hload, heer, -, -, -, -⟩ := h
  have hfac : absorptance_ref - absorptance_new i < 0 := by
    have hsr5 : i.sr < 5 / 100 := by simpa [sr_ref] using hsr
    simp only [absorptance_ref, absorptance_new, sr_ref]
    linarith
  have hq : deltaQ i < 0 :=
    mul_neg_of_neg_of_pos (mul_neg_of_neg_of_pos hfac hload) harea
  have hnum : deltaQ i * i.f_cool < 0 := mul_neg_of_neg_of_pos hq hf
  have hcop : (0 : ℚ) < i.eer / (3412 / 1000) := div_pos heer (by norm_num)
  exact div_neg_of_neg_of_pos hnum hcop

/-- Witness for the amended C6: the default scenario with `sr = 0`. -/
theorem c6_sign_correctness_witness :
    Preconditions { inp0 with sr := 0 } ∧ 0 < { inp0 with sr := 0 }.f_cool ∧
    { inp0 with sr := 0 }.sr < sr_ref ∧ annual_kwh { inp0 with sr := 0 } < 0 :=
  ⟨by norm_num [Preconditions, inp0], by norm_num [inp0], by norm_num [inp0, sr_ref],
   c6_sign_correctness { inp0 with sr := 0 } (by norm_num [Preconditions, inp0])
     (by norm_num [inp0]) (by norm_num [inp0, sr_ref])⟩

/-- A fully absorbing proposed roof (`deltaQ ≠ 0`) with zero cooling-load
fraction, used against the monotonicity claim. -/
def inp7 : Inputs := { inp0 with sr := 1, f_cool := 0 }

/-- C7 as stated is false: with `f_cool = 0` (allowed by §4.1) and nonzero
`deltaQ`, both EER choices give `annual_kwh = 0`, so `|annual_kwh|` does not
strictly decrease from EER 9 to EER 11. -/
theorem c7_counterexample :
    Preconditions { inp7 with eer := 9 } ∧ Preconditions { inp7 with eer := 11 } ∧
    (9 : ℚ) < 11 ∧ deltaQ inp7 ≠ 0 ∧
    ¬ |annual_kwh { inp7 with eer := 11 }| < |annual_kwh { inp7 with eer := 9 }| := by
  refine ⟨by norm_num [Preconditions, inp7, inp0], by norm_num [Preconditions, inp7, inp0],
    by norm_num, by norm_num [deltaQ, absorptance_ref, absorptance_new, inp7, inp0, sr_ref], ?_⟩
  norm_num [annual_kwh, deltaQ, absorptance_ref, absorptance_new, inp7, inp0, sr_ref]

/-- C7 (amended): for two precondition-satisfying inputs identical except
for the EER, with `e1 < e2`, nonzero `deltaQ` and additionally `f_cool > 0`,
the higher EER gives strictly smaller `|annual_kwh|`. -/
theorem c7_eer_monotonicity (i : Inputs) (e1 e2 : ℚ)
    (h1 : Preconditions { i with eer := e1 }) (h2 : Preconditions { i with eer := e2 })
    (he : e1 < e2) (hq : deltaQ i ≠ 0) (hf : 0 < i.f_cool) :
    |annual_kwh { i with eer := e2 }| < |annual_kwh { i with eer := e1 }| := by
  have he1 : (0 : ℚ) < e1 := h1.2.2.2.2.2.2.1
  have hc : (0 : ℚ) < 3412 / 1000 := by norm_num
  have hd1 : (0 : ℚ) < e1 / (3412 / 1000) := div_pos he1 hc
  have hd2 : (0 : ℚ) < e2 / (3412 / 1000) := div_pos (he1.trans he) hc
  have hA : deltaQ i * i.f_cool ≠ 0 := mul_ne_zero hq (ne_of_gt hf)
  have key1 : annual_kwh { i with eer := e1 } =
      deltaQ i * i.f_cool / (e1 / (3412 / 1000)) := rfl
  have key2 : annual_kwh { i with eer := e2 } =
      deltaQ i * i.f_cool / (e2 / (3412 / 1000)) := rfl
  rw [key1, key2, abs_div, abs_of_pos hd2, abs_div, abs_of_pos hd1]
  exact div_lt_div_of_pos_left (abs_pos.mpr hA) hd1 ((div_lt_div_iff_of_pos_right hc).mpr he)

/-- Witness for the amended C7: default scenario, EER raised from 9 to 11. -/
theorem c7_eer_monotonicity_witness :
    Preconditions { inp0 with eer := 9 } ∧ Preconditions { inp0 with eer := 11 } ∧
    (9 : ℚ) < 11 ∧ deltaQ inp0 ≠ 0 ∧ 0 < inp0.f_cool ∧
    |annual_kwh { inp0 with eer := 11 }| < |annual_kwh { inp0 with eer := 9 }| :=
  ⟨by norm_num [Preconditions, inp0], by norm_num [Preconditions, inp0], by norm_num,
   by norm_num [deltaQ, absorptance_ref, absorptance_new, inp0, sr_ref],
   by norm_num [inp0],
   c7_eer_monotonicity inp0 9 11
     (by norm_num [Preconditions, inp0]) (by norm_num [Preconditions, inp0])
     (by norm_num)
     (by norm_num [deltaQ, absorptance_ref, absorptance_new, inp0, sr_ref])
     (by norm_num [inp0])⟩

/-- C9: the spec's §8 concrete scenario: `deltaQ = 62400` exactly, the three
annual figures within 1 of 19355, 13549 and 15871 respectively, and the
year-20 cumulative energy (last entry of `cum_kwh`) within 10 of 387100. -/
theorem c9_concrete_scenario :
    deltaQ inp0 = 62400 ∧
    |annual_kwh inp0 - 19355| < 1 ∧
    |annual_cost inp0 - 13549| < 1 ∧
    |annual_co2 inp0 - 15871| < 1 ∧
    (cum_kwh inp0).getLast? = some (annual_kwh inp0 * 20) ∧
    |annual_kwh inp0 * 20 - 387100| < 10 := by
  refine ⟨?_, ?_, ?_, ?_, rfl, ?_⟩ <;>
    norm_num [annual_kwh, annual_cost, annual_co2, deltaQ,
      absorptance_ref, absorptance_new, sr_ref, inp0, abs_lt]

/-- Multiplying by a strictly positive rational preserves the sign
trichotomy. -/
theorem sign_mul_of_pos (a c : ℚ) (hc : 0 < c) :
    (0 < a * c ↔ 0 < a) ∧ (a * c = 0 ↔ a = 0) ∧ (a * c < 0 ↔ a < 0) := by
  refine ⟨?_, ?_, ?_⟩
  · rw [mul_pos_iff]
    constructor
    · rintro (⟨h, -⟩ | ⟨-, h⟩)
      · exact h
      · exact absurd hc (not_lt.mpr h.le)
    · intro h
      exact Or.inl ⟨h, hc⟩
  · rw [mul_eq_zero]
    simp [hc.ne']
  · rw [mul_neg_iff]
    constructor
    · rintro (⟨-, h⟩ | ⟨h, -⟩)
      · exact absurd h (not_lt.mpr hc.le)
      · exact h
    · intro h
      exact Or.inr ⟨h, hc⟩

/-- C10: under the §4.1 preconditions (`elec_price > 0`, `co2_factor > 0`),
`annual_cost` and `annual_co2` have exactly the sign of `annual_kwh`, and
every projection tuple's three cumulative values share that same sign. -/
theorem c10_sign_coherence (i : Inputs) (h : Preconditions i) :
    ((0 < annual_cost i ↔ 0 < annual_kwh i) ∧ (annual_cost i = 0 ↔ annual_kwh i = 0) ∧
      (annual_cost i < 0 ↔ annual_kwh i < 0)) ∧
    ((0 < annual_co2 i ↔ 0 < annual_kwh i) ∧ (annual_co2 i = 0 ↔ annual_kwh i = 0) ∧
      (annual_co2 i < 0 ↔ annual_kwh i < 0)) ∧
    ∀ p ∈ (compute i).projection,
      ((0 < p.2.1 ↔ 0 < annual_kwh i) ∧ (p.2.1 = 0 ↔ annual_kwh i = 0) ∧
        (p.2.1 < 0 ↔ annual_kwh i < 0)) ∧
      ((0 < p.2.2.1 ↔ 0 < annual_kwh i) ∧ (p.2.2.1 = 0 ↔ annual_kwh i = 0) ∧
        (p.2.2.1 < 0 ↔ annual_kwh i < 0)) ∧
      ((0 < p.2.2.2 ↔ 0 < annual_kwh i) ∧ (p.2.2.2 = 0 ↔ annual_kwh i = 0) ∧
        (p.2.2.2 < 0 ↔ annual_kwh i < 0)) := by
  obtain ⟨-, -, -, -, -, -, -, -, -, hprice, hco2⟩ := h
  have hp := sign_mul_of_pos (annual_kwh i) i.elec_price hprice
  have hc2 := sign_mul_of_pos (annual_kwh i) i.co2_factor hco2
  refine ⟨hp, hc2, ?_⟩
  intro p hp2
  simp only [compute, projection] at hp2
  obtain ⟨y, hy, rfl⟩ := List.mem_map.mp hp2
  have hy' : 1 ≤ y ∧ y < 21 := by simpa [years] using hy
  have hy1 : 1 ≤ y := hy'.1
  have hyq : (0 : ℚ) < y := by exact_mod_cast hy1
  have h1 := sign_mul_of_pos (annual_kwh i) y hyq
  have h2 := sign_mul_of_pos (annual_cost i) y hyq
  have h3 := sign_mul_of_pos (annual_co2 i) y hyq
  exact ⟨h1,
    ⟨h2.1.trans hp.1, h2.2.1.trans hp.2.1, h2.2.2.trans hp.2.2⟩,
    ⟨h3.1.trans hc2.1, h3.2.1.trans hc2.2.1, h3.2.2.trans hc2.2.2⟩⟩

/-- Witness for C10 at the concrete default scenario. -/
theorem c10_sign_coherence_witness :
    Preconditions inp0 ∧
    (((0 < annual_cost inp0 ↔ 0 < annual_kwh inp0) ∧
       (annual_cost inp0 = 0 ↔ annual_kwh inp0 = 0) ∧
       (annual_cost inp0 < 0 ↔ annual_kwh inp0 < 0)) ∧
     ((0 < annual_co2 inp0 ↔ 0 < annual_kwh inp0) ∧
       (annual_co2 inp0 = 0 ↔ annual_kwh inp0 = 0) ∧
       (annual_co2 inp0 < 0 ↔ annual_kwh inp0 < 0)) ∧
     ∀ p ∈ (compute inp0).projection,
       ((0 < p.2.1 ↔ 0 < annual_kwh inp0) ∧ (p.2.1 = 0 ↔ annual_kwh inp0 = 0) ∧
         (p.2.1 < 0 ↔ annual_kwh inp0 < 0)) ∧
       ((0 < p.2.2.1 ↔ 0 < annual_kwh inp0) ∧ (p.2.2.1 = 0 ↔ annual_kwh inp0 = 0) ∧
         (p.2.2.1 < 0 ↔ annual_kwh inp0 < 0)) ∧
       ((0 < p.2.2.2 ↔ 0 < annual_kwh inp0) ∧ (p.2.2.2 = 0 ↔ annual_kwh inp0 = 0) ∧
         (p.2.2.2 < 0 ↔ annual_kwh inp0 < 0))) :=
  ⟨by norm_num [Preconditions, inp0], c10_sign_coherence inp0 (by norm_num [Preconditions, inp0])⟩

end CoolRoof
